import Mathlib

/-
Verification of the synchronization core of the Notes client (src/sync.js).

The JavaScript source is shallowly embedded below.  JavaScript objects
holding note data are modelled by the structure `Note`; absent object
properties are modelled with `Option`, and the JS string coercion of
`undefined` under `+` is modelled by `jsStr`.  The external cipher
(Jose/WebCrypto) is out of scope of the source and is modelled as an
invertible identity transform on payloads.  The effectful orchestrator
(`syncKinto`, `loadFromKinto`, the debounced save callback) is modelled as
pure functions over an explicit script of environment outcomes, emitting an
ordered list of `Effect`s.
-/

namespace NotesSync

/-- A note object as it flows through sync.js: `id`, plaintext `content`,
the Kinto `_status` field, the envelope timestamp `last_modified`, the
`deleted` tombstone marker and the `wasSingleNote` migration marker.
Absent JS properties are `none`/`false`. -/
structure Note where
  id : String := ""
  content : Option String := none
  _status : Option String := none
  last_modified : Option Nat := none
  deleted : Bool := false
  wasSingleNote : Bool := false
deriving DecidableEq

/-- The key object handed to `JWETransformer` (`credential.key`): the
version tag `kid` plus the raw key material fields consumed only by the
external cipher. -/
structure JWEKey where
  kid : String
  kty : String := ""
  k : String := ""
deriving DecidableEq

/-- Modelled from the spec: the cipher (Jose `Encrypter` over WebCrypto,
src/sync.js lines 17-20) is an external collaborator assumed correct, so
encryption is modelled as the identity on the serialized payload. -/
def encrypt (_key : JWEKey) (content : Note) : Note := content

/-- Modelled from the spec: the cipher (Jose `Decrypter` over WebCrypto,
src/sync.js lines 22-27) is an external collaborator assumed correct, so
decryption is modelled as the identity on the serialized payload. -/
def decrypt (_key : JWEKey) (encrypted : Note) : Note := encrypted

/-- The encrypted wire record built by `JWETransformer.encode`
(src/sync.js lines 67-75): ciphertext `content` (absent on tombstones),
`id`, translated `_status`, the key version tag `kid`, the optional
envelope `last_modified`, and the store-level `deleted` tombstone marker. -/
structure EncryptedRecord where
  content : Option Note := none
  id : String := ""
  _status : Option String := none
  kid : String := ""
  last_modified : Option Nat := none
  deleted : Bool := false
deriving DecidableEq

/-- The failures `decode` can raise: the generic
`No ciphertext: nothing to decrypt?` error (line 86), `ServerKeyNewerError`
(lines 42-46) and `ServerKeyOlderError` (lines 48-52). -/
inductive DecodeError where
  | noCiphertext
  | serverKeyNewerError
  | serverKeyOlderError
deriving DecidableEq

/-- The view of a tombstone wire record as the note object that `decode`
returns verbatim on line 84 (`return record`): it carries no plaintext
content, and keeps the record's id, status, timestamp and deletion
marker. -/
def EncryptedRecord.toNote (record : EncryptedRecord) : Note :=
  { id := record.id, content := none, _status := record._status,
    last_modified := record.last_modified, deleted := record.deleted,
    wasSingleNote := false }

/-- The `JWETransformer` class (src/sync.js line 54): holds the active
credential key. -/
structure JWETransformer where
  key : JWEKey
deriving DecidableEq

/-- `JWETransformer.encode` (src/sync.js lines 59-78): encrypt the whole
record, translate `_status` (`deleted` is rewritten to `updated` so that
deletions do not leak on the unencrypted status channel), attach the active
key's `kid`, and copy `last_modified` to the envelope iff present. -/
def JWETransformer.encode (t : JWETransformer) (record : Note) : EncryptedRecord :=
  let ciphertext := encrypt t.key record
  let status := record._status.map (fun s => if s = "deleted" then "updated" else s)
  { content := some ciphertext, id := record.id, _status := status,
    kid := t.key.kid, last_modified := record.last_modified }

/-- `JWETransformer.decode` (src/sync.js lines 80-109): a record without
ciphertext is a tombstone and is returned as-is if it carries the deletion
marker, else an error; otherwise the record's `kid` is compared with the
active key's `kid` (JS `<` on strings, i.e. lexicographic comparison of
the character lists); on a match the payload is decrypted, the envelope
`last_modified` is re-attached when present, and an encrypted
`_status = deleted` payload is flagged `deleted`. -/
def JWETransformer.decode (t : JWETransformer) (record : EncryptedRecord) :
    Except DecodeError Note :=
  match record.content with
  | none =>
    if record.deleted then
      Except.ok record.toNote
    else
      Except.error DecodeError.noCiphertext
  | some ciphertext =>
    if record.kid ≠ t.key.kid then
      if t.key.kid.toList < record.kid.toList then
        Except.error DecodeError.serverKeyNewerError
      else
        Except.error DecodeError.serverKeyOlderError
    else
      let decoded := decrypt t.key ciphertext
      let decoded :=
        match record.last_modified with
        | some lm => { decoded with last_modified := some lm }
        | none => decoded
      let decoded :=
        if decoded._status = some "deleted" then { decoded with deleted := true }
        else decoded
      Except.ok decoded

/- Sample inputs used by the witness theorems below. -/

/-- A concrete active transformer with key version tag `k2`. -/
def sampleTransformer : JWETransformer := { key := { kid := "k2" } }

/-- A concrete non-deleted note carrying every metadata field. -/
def sampleNote : Note :=
  { id := "n1", content := some "hello", _status := some "updated",
    last_modified := some 42 }

/-- A concrete note flagged as deleted on the client. -/
def sampleDeletedNote : Note :=
  { id := "n2", content := some "bye", _status := some "deleted" }

/-- A concrete store-level tombstone: no ciphertext, deletion marker set. -/
def sampleTombstone : EncryptedRecord :=
  { id := "n3", last_modified := some 7, deleted := true }

/-- A concrete payload note whose own `last_modified` is `some 5`. -/
def samplePayload : Note :=
  { id := "n4", content := some "body", last_modified := some 5 }

/-- A concrete encrypted record (key tag `k2`) whose envelope carries no
`last_modified` although its encrypted payload does. -/
def sampleNoEnvelopeLM : EncryptedRecord :=
  { content := some samplePayload, id := "n4", kid := "k2" }

/-- A concrete encrypted record (key tag `k2`) whose envelope carries
`last_modified = 9` while its encrypted payload carries `5`. -/
def sampleEnvelopeLM9 : EncryptedRecord :=
  { content := some samplePayload, id := "n4", kid := "k2",
    last_modified := some 9 }

/-- A concrete encrypted record whose key tag `k3` follows the active
key's tag `k2`. -/
def sampleNewerRecord : EncryptedRecord :=
  { content := some samplePayload, id := "n5", kid := "k3" }

/-- A concrete encrypted record whose key tag `k1` precedes the active
key's tag `k2`. -/
def sampleOlderRecord : EncryptedRecord :=
  { content := some samplePayload, id := "n6", kid := "k1" }

/-- A concrete encrypted record whose key tag matches the active key. -/
def sampleMatchingRecord : EncryptedRecord :=
  { content := some samplePayload, id := "n7", kid := "k2" }

/-- C1: for every note whose status is not `deleted`, decoding the result
of encoding it under the same key succeeds and reproduces the note's id
and content exactly, and its `last_modified` value (present or not) is
preserved unchanged. -/
theorem decode_encode_roundtrip (t : JWETransformer) (n : Note)
    (h : n._status ≠ some "deleted") :
    ∃ m, t.decode (t.encode n) = Except.ok m ∧
      m.id = n.id ∧ m.content = n.content ∧ m.last_modified = n.last_modified := by
  refine ⟨n, ?_, rfl, rfl, rfl⟩
  cases hlm : n.last_modified with
  | none =>
    simp [JWETransformer.decode, JWETransformer.encode, encrypt, decrypt, hlm, h]
  | some lm =>
    simp [JWETransformer.decode, JWETransformer.encode, encrypt, decrypt, hlm, h]
    rw [← hlm]

/-- C1 witness: the round trip evaluated at a concrete note. -/
theorem decode_encode_roundtrip_witness :
    ∃ m, sampleTransformer.decode (sampleTransformer.encode sampleNote) = Except.ok m ∧
      m.id = sampleNote.id ∧ m.content = sampleNote.content ∧
      m.last_modified = sampleNote.last_modified :=
  decode_encode_roundtrip sampleTransformer sampleNote (by decide)

/-- C2: encoding a deleted note puts exactly `updated` (never `deleted`)
in the wire status field; and decoding a store-level tombstone (no
ciphertext, deletion marker set) yields the record itself as a note
carrying the deletion marker, and does so identically under every key,
i.e. without invoking decryption. -/
theorem deletion_opacity (t : JWETransformer) (n : Note) (r : EncryptedRecord)
    (hn : n._status = some "deleted") (hc : r.content = none) (hd : r.deleted = true) :
    (t.encode n)._status = some "updated" ∧
    t.decode r = Except.ok r.toNote ∧
    r.toNote.deleted = true ∧
    (∀ t2 : JWETransformer, t2.decode r = t.decode r) := by
  refine ⟨?_, ?_, ?_, ?_⟩
  · simp [JWETransformer.encode, hn]
  · simp [JWETransformer.decode, hc, hd]
  · simp [EncryptedRecord.toNote, hd]
  · intro t2
    simp [JWETransformer.decode, hc, hd]

/-- C2 witness: deletion opacity evaluated at a concrete deleted note and
a concrete tombstone. -/
theorem deletion_opacity_witness :
    (sampleTransformer.encode sampleDeletedNote)._status = some "updated" ∧
    sampleTransformer.decode sampleTombstone = Except.ok sampleTombstone.toNote ∧
    sampleTombstone.toNote.deleted = true ∧
    (∀ t2 : JWETransformer, t2.decode sampleTombstone = sampleTransformer.decode sampleTombstone) :=
  deletion_opacity sampleTransformer sampleDeletedNote sampleTombstone rfl rfl rfl

/-- C3: on a record that carries ciphertext, decoding fails with
`ServerKeyNewerError` when the record's key tag is lexicographically
strictly greater than the active key's tag, fails with
`ServerKeyOlderError` when it is strictly lesser, and succeeds when the
tags are equal (the modelled cipher itself cannot fail). -/
theorem key_mismatch_ordering (t : JWETransformer) (r : EncryptedRecord) (p : Note)
    (hc : r.content = some p) :
    (t.key.kid < r.kid → t.decode r = Except.error DecodeError.serverKeyNewerError) ∧
    (r.kid < t.key.kid → t.decode r = Except.error DecodeError.serverKeyOlderError) ∧
    (r.kid = t.key.kid → ∃ m, t.decode r = Except.ok m) := by
  refine ⟨?_, ?_, ?_⟩
  · intro h
    have hne : r.kid ≠ t.key.kid := (ne_of_lt h).symm
    have hlt : t.key.kid.data < r.kid.data := String.lt_iff_toList_lt.mp h
    simp [JWETransformer.decode, hc, hne, hlt]
  · intro h
    have hne : r.kid ≠ t.key.kid := ne_of_lt h
    have hle : r.kid.data ≤ t.key.kid.data :=
      not_lt.mp ((not_congr String.lt_iff_toList_lt).mp (lt_asymm h))
    simp [JWETransformer.decode, hc, hne, hle]
  · intro h
    cases hlm : r.last_modified with
    | none =>
      by_cases hst : p._status = some "deleted"
      · exact ⟨{ p with deleted := true },
          by simp [JWETransformer.decode, hc, h, hlm, decrypt, hst]⟩
      · exact ⟨p, by simp [JWETransformer.decode, hc, h, hlm, decrypt, hst]⟩
    | some lm =>
      by_cases hst : p._status = some "deleted"
      · exact ⟨{ { p with last_modified := some lm } with deleted := true },
          by simp [JWETransformer.decode, hc, h, hlm, decrypt, hst]⟩
      · exact ⟨{ p with last_modified := some lm },
          by simp [JWETransformer.decode, hc, h, hlm, decrypt, hst]⟩

/-- C3 witness: the three key-tag orderings evaluated on concrete records
with tags `k3` (newer), `k1` (older) and `k2` (matching) against the
active tag `k2`. -/
theorem key_mismatch_ordering_witness :
    sampleTransformer.decode sampleNewerRecord = Except.error DecodeError.serverKeyNewerError ∧
    sampleTransformer.decode sampleOlderRecord = Except.error DecodeError.serverKeyOlderError ∧
    (∃ m, sampleTransformer.decode sampleMatchingRecord = Except.ok m) :=
  ⟨(key_mismatch_ordering sampleTransformer sampleNewerRecord samplePayload rfl).1
      (String.lt_iff_toList_lt.mpr (by decide)),
   (key_mismatch_ordering sampleTransformer sampleOlderRecord samplePayload rfl).2.1
      (String.lt_iff_toList_lt.mpr (by decide)),
   (key_mismatch_ordering sampleTransformer sampleMatchingRecord samplePayload rfl).2.2 rfl⟩

/-- C4 counterexample: a record whose envelope carries no `last_modified`
while its encrypted payload carries `last_modified = 5` decodes to a note
carrying the payload's value `some 5`, not the envelope's absent value, so
the decoded note does not always carry the envelope's `last_modified`. -/
theorem decode_last_modified_counterexample :
    sampleNoEnvelopeLM.last_modified = none ∧
    sampleTransformer.decode sampleNoEnvelopeLM = Except.ok samplePayload ∧
    samplePayload.last_modified = some 5 := by
  refine ⟨rfl, ?_, rfl⟩
  simp [JWETransformer.decode, sampleNoEnvelopeLM, sampleTransformer, samplePayload, decrypt]

/-- C4 amended: for a record that decodes successfully, when the envelope
carries a `last_modified` value the decoded note carries the envelope's
value (overriding whatever the encrypted payload carries), but when the
envelope carries none the decoded note retains the encrypted payload's
`last_modified` value. -/
theorem decode_last_modified_from_envelope (t : JWETransformer)
    (r : EncryptedRecord) (p : Note) (hc : r.content = some p)
    (hk : r.kid = t.key.kid) :
    (∀ lm, r.last_modified = some lm →
      ∃ m, t.decode r = Except.ok m ∧ m.last_modified = some lm) ∧
    (r.last_modified = none →
      ∃ m, t.decode r = Except.ok m ∧ m.last_modified = p.last_modified) := by
  constructor
  · intro lm hlm
    by_cases hst : p._status = some "deleted"
    · exact ⟨{ { p with last_modified := some lm } with deleted := true },
        by simp [JWETransformer.decode, hc, hk, hlm, decrypt, hst], rfl⟩
    · exact ⟨{ p with last_modified := some lm },
        by simp [JWETransformer.decode, hc, hk, hlm, decrypt, hst], rfl⟩
  · intro hlm
    by_cases hst : p._status = some "deleted"
    · exact ⟨{ p with deleted := true },
        by simp [JWETransformer.decode, hc, hk, hlm, decrypt, hst], rfl⟩
    · exact ⟨p, by simp [JWETransformer.decode, hc, hk, hlm, decrypt, hst], rfl⟩

/-- C4 witness: the amended envelope rule evaluated on two concrete
records, one whose envelope carries `last_modified = 9` over a payload
value of `5`, and one whose envelope carries none. -/
theorem decode_last_modified_from_envelope_witness :
    (∃ m, sampleTransformer.decode sampleEnvelopeLM9 = Except.ok m ∧
      m.last_modified = some 9) ∧
    (∃ m, sampleTransformer.decode sampleNoEnvelopeLM = Except.ok m ∧
      m.last_modified = samplePayload.last_modified) :=
  ⟨(decode_last_modified_from_envelope sampleTransformer sampleEnvelopeLM9
      samplePayload rfl rfl).1 9 rfl,
   (decode_last_modified_from_envelope sampleTransformer sampleNoEnvelopeLM
      samplePayload rfl rfl).2 rfl⟩

/-- Messages sent to the surrounding application via
`browser.runtime.sendMessage` in sync.js. -/
inductive Msg where
  | reconnect
  | kintoLoaded (notes : Option (List Note)) (last_modified : Option Nat)
  | textEditing
  | textSaved
  | textSynced (notes : Option (List Note)) (conflict : Bool)
deriving DecidableEq

/-- Observable side effects of a sync cycle, in program order: persisting
the renewed credential, invoking `collection.sync`, clearing the stored
credential, sending a runtime message, logging to the console, deleting
the remote collection, resetting the local sync status, upserting a note
into the local collection, submitting a conflict resolution, and emitting
a telemetry metric. -/
inductive Effect where
  | setCredential
  | syncAttempt
  | clearCredential
  | send (m : Msg)
  | consoleError
  | deleteCollection
  | resetSyncStatus
  | upsertNote (n : Note)
  | resolveEffect (localNote : Note) (remote : Option Note) (resolution : Note)
  | metric (name : String)
deriving DecidableEq

/-- A conflict surfaced by `collection.sync` with the `manual` strategy:
the local note plus the decoded remote note, the latter absent (`null`)
when the remote side has no counterpart. -/
structure Conflict where
  localNote : Note
  remote : Option Note
deriving DecidableEq

/-- The result of `collection.sync`: unresolved conflicts plus the records
published during the round. -/
structure SyncResult where
  conflicts : List Conflict
  published : List Note
deriving DecidableEq

/-- JS `+` string coercion: concatenating an absent property renders the
text `undefined`. -/
def jsStr : Option String → String
  | none => "undefined"
  | some s => s

/-- `syncResult.published.find(note => note.wasSingleNote)`
(src/sync.js line 204): the first published note flagged as the
pre-migration single note, if any. -/
def findWasSingleNote : List Note → Option Note
  | [] => none
  | n :: rest => if n.wasSingleNote then some n else findWasSingleNote rest

/-- The in-place mutation `wasSingleNote.content = totalOps`
(src/sync.js line 206) seen through the `published` list: the first note
flagged `wasSingleNote` gets the merged content. -/
def overwriteWasSingleNote (newContent : String) : List Note → List Note
  | [] => []
  | n :: rest =>
    if n.wasSingleNote then { n with content := some newContent } :: rest
    else n :: overwriteWasSingleNote newContent rest

/-- The outcome of resolving one conflict (src/sync.js lines 188-222): the
resolution passed to `collection.resolve`, the `published` list after any
in-place mutation, the side effects emitted, and whether `client.conflict`
was set during this conflict. -/
structure ResolveStep where
  resolution : Note
  published : List Note
  effects : List Effect
  conflictFlag : Bool
deriving DecidableEq

/-- The per-conflict resolution policy of `syncKinto`
(src/sync.js lines 188-222), parameterized by the externally localized
`mergeWarning` text.  `remote === null` resolves to the local id and
content verbatim; a remote `singleNote` record merges the remote content,
the warning banner and the published was-single-note content, upserts the
merged note and resolves to the local note; any other remote merges the
remote content, the banner and the local content under the remote id.
Errors model a JS `TypeError` thrown when no published note carries the
`wasSingleNote` flag. -/
def resolveConflict (mergeWarning : String) (published : List Note)
    (conflict : Conflict) : Except String ResolveStep :=
  match conflict.remote with
  | none =>
    let resolution : Note :=
      { id := conflict.localNote.id, content := conflict.localNote.content }
    Except.ok { resolution := resolution, published := published,
                effects := [Effect.resolveEffect conflict.localNote none resolution],
                conflictFlag := false }
  | some remote =>
    let totalOps := jsStr remote.content ++ "<p>" ++ mergeWarning ++ "</p>"
    if remote.id = "singleNote" then
      match findWasSingleNote published with
      | none => Except.error "TypeError: wasSingleNote is undefined"
      | some wasSingleNote =>
        let totalOps := totalOps ++ jsStr wasSingleNote.content
        Except.ok { resolution := conflict.localNote,
                    published := overwriteWasSingleNote totalOps published,
                    effects := [Effect.upsertNote { wasSingleNote with content := some totalOps },
                                Effect.metric "migrate-single-note",
                                Effect.metric "handle-conflict",
                                Effect.resolveEffect conflict.localNote (some remote) conflict.localNote],
                    conflictFlag := true }
    else
      let totalOps := totalOps ++ jsStr conflict.localNote.content
      let resolution : Note := { id := remote.id, content := some totalOps }
      Except.ok { resolution := resolution, published := published,
                  effects := [Effect.metric "handle-conflict",
                              Effect.resolveEffect conflict.localNote (some remote) resolution],
                  conflictFlag := true }

/-- A concrete local-only conflict matching end-to-end scenario 3 of the
spec: `remote: null`, `local: id "abc", content "x"`. -/
def sampleLocalOnlyConflict : Conflict :=
  { localNote := { id := "abc", content := some "x" }, remote := none }

/-- A concrete two-sided conflict whose remote id is not the sentinel. -/
def sampleDefaultConflict : Conflict :=
  { localNote := { id := "abc", content := some "mine" },
    remote := some { id := "abc", content := some "theirs" } }

/-- A concrete sentinel single-note migration conflict. -/
def sampleSingleNoteConflict : Conflict :=
  { localNote := { id := "singleNote", _status := some "deleted" },
    remote := some { id := "singleNote", content := some "old single" } }

/-- A concrete published list whose second entry carries the
`wasSingleNote` marker. -/
def samplePublished : List Note :=
  [{ id := "other", content := some "o" },
   { id := "m1", content := some "migrated", wasSingleNote := true }]

/-- C5: a conflict whose remote side is absent resolves to exactly the
local record's id and content, the published list is untouched, no merge
text is produced and the session conflict flag is not set. -/
theorem conflict_remote_null_local_wins (mergeWarning : String)
    (published : List Note) (c : Conflict) (h : c.remote = none) :
    resolveConflict mergeWarning published c =
      Except.ok { resolution := { id := c.localNote.id, content := c.localNote.content },
                  published := published,
                  effects := [Effect.resolveEffect c.localNote none
                    { id := c.localNote.id, content := c.localNote.content }],
                  conflictFlag := false } := by
  simp [resolveConflict, h]

/-- C5 witness: the spec's end-to-end scenario 3, a conflict with
`remote: null` and local `id "abc", content "x"` resolves to
`id "abc", content "x"`. -/
theorem conflict_remote_null_local_wins_witness :
    resolveConflict "warn" [] sampleLocalOnlyConflict =
      Except.ok { resolution := { id := "abc", content := some "x" },
                  published := [],
                  effects := [Effect.resolveEffect sampleLocalOnlyConflict.localNote none
                    { id := "abc", content := some "x" }],
                  conflictFlag := false } :=
  conflict_remote_null_local_wins "warn" [] sampleLocalOnlyConflict rfl

/-- C6: a conflict whose remote side is present and is not the sentinel
single-note record resolves to the remote id with the remote content,
followed by the merge-warning banner, followed by the local content, in
that order. -/
theorem conflict_merge_default (mergeWarning : String) (published : List Note)
    (c : Conflict) (r : Note) (h : c.remote = some r) (hid : r.id ≠ "singleNote") :
    ∃ step, resolveConflict mergeWarning published c = Except.ok step ∧
      step.resolution.id = r.id ∧
      step.resolution.content =
        some (jsStr r.content ++ "<p>" ++ mergeWarning ++ "</p>" ++ jsStr c.localNote.content) := by
  refine ⟨{ resolution := { id := r.id, content := some (jsStr r.content ++ "<p>" ++ mergeWarning ++ "</p>" ++ jsStr c.localNote.content) }, published := published, effects := [Effect.metric "handle-conflict", Effect.resolveEffect c.localNote (some r) { id := r.id, content := some (jsStr r.content ++ "<p>" ++ mergeWarning ++ "</p>" ++ jsStr c.localNote.content) }], conflictFlag := true }, ?_, rfl, rfl⟩
  simp [resolveConflict, h, hid]

/-- C6 witness: the default merge evaluated on a concrete two-sided
conflict, producing remote content, banner, then local content. -/
theorem conflict_merge_default_witness :
    ∃ step, resolveConflict "warn" samplePublished sampleDefaultConflict = Except.ok step ∧
      step.resolution.id = "abc" ∧
      step.resolution.content = some ("theirs" ++ "<p>" ++ "warn" ++ "</p>" ++ "mine") :=
  conflict_merge_default "warn" samplePublished sampleDefaultConflict
    { id := "abc", content := some "theirs" } rfl (by decide)

/-- C7: resolving the sentinel single-note conflict twice against the same
`published` state yields the identical resolve step both times, and the
content upserted for the was-single-note record is exactly the remote
content, the banner and the was-single-note record's original content:
the merge text is applied once, not stacked, on a retry with the same
published state. -/
theorem single_note_migration_idempotent (mergeWarning : String)
    (published : List Note) (c : Conflict) (r w : Note) (h : c.remote = some r)
    (hid : r.id = "singleNote") (hf : findWasSingleNote published = some w) :
    ∃ step, resolveConflict mergeWarning published c = Except.ok step ∧
      resolveConflict mergeWarning published c = Except.ok step ∧
      step.effects.head? = some (Effect.upsertNote { w with content := some (jsStr r.content ++ "<p>" ++ mergeWarning ++ "</p>" ++ jsStr w.content) }) ∧
      step.resolution = c.localNote := by
  refine ⟨{ resolution := c.localNote, published := overwriteWasSingleNote (jsStr r.content ++ "<p>" ++ mergeWarning ++ "</p>" ++ jsStr w.content) published, effects := [Effect.upsertNote { w with content := some (jsStr r.content ++ "<p>" ++ mergeWarning ++ "</p>" ++ jsStr w.content) }, Effect.metric "migrate-single-note", Effect.metric "handle-conflict", Effect.resolveEffect c.localNote (some r) c.localNote], conflictFlag := true }, ?_, ?_, rfl, rfl⟩ <;>
    simp [resolveConflict, h, hid, hf]

/-- C7 witness: the migration merge evaluated twice on a concrete
sentinel conflict and published list. -/
theorem single_note_migration_idempotent_witness :
    ∃ step, resolveConflict "warn" samplePublished sampleSingleNoteConflict = Except.ok step ∧
      resolveConflict "warn" samplePublished sampleSingleNoteConflict = Except.ok step ∧
      step.effects.head? = some (Effect.upsertNote { id := "m1", content := some ("old single" ++ "<p>" ++ "warn" ++ "</p>" ++ "migrated"), wasSingleNote := true }) ∧
      step.resolution = sampleSingleNoteConflict.localNote :=
  single_note_migration_idempotent "warn" samplePublished sampleSingleNoteConflict
    { id := "singleNote", content := some "old single" }
    { id := "m1", content := some "migrated", wasSingleNote := true }
    rfl rfl (by decide)

/-- A raised JS failure as inspected by the catch handler of `syncKinto`
(src/sync.js lines 229-262): the optional HTTP response status, the two
key-rotation error classes identified by `instanceof`, and the message
string. -/
structure JsError where
  responseStatus : Option Nat := none
  isServerKeyNewer : Bool := false
  isServerKeyOlder : Bool := false
  message : String := ""
deriving DecidableEq

/-- How the promise returned by `syncKinto` settles: resolved (with
`undefined` or `null`) or rejected with the original error. -/
inductive SyncRet where
  | resolved
  | rejected (e : JsError)
deriving DecidableEq

/-- What a single cycle decides: settle the whole promise, or restart the
cycle by re-invoking `syncKinto`. -/
inductive CycleRet where
  | done (r : SyncRet)
  | retry
deriving DecidableEq

/-- Whether `pat` is a leading segment of `s`, on character lists. -/
def charsStartsWith : List Char → List Char → Bool
  | [], _ => true
  | _ :: _, [] => false
  | a :: as, b :: bs => a = b && charsStartsWith as bs

/-- Whether `pat` occurs as a contiguous segment of `s`, on character
lists. -/
def charsIncludes (pat : List Char) : List Char → Bool
  | [] => charsStartsWith pat []
  | b :: bs => charsStartsWith pat (b :: bs) || charsIncludes pat bs

/-- JS `String.prototype.includes`: substring containment. -/
def jsIncludes (s pat : String) : Bool := charsIncludes pat.data s.data

/-- The catch handler of `syncKinto` (src/sync.js lines 229-262), as a
pure classifier evaluated in source precedence: HTTP 401 reconnects and
resolves; `ServerKeyNewerError` logs, reconnects and resolves;
`ServerKeyOlderError` logs, deletes the remote collection, resets the sync
status and retries; a message containing `flushed` resets the sync status
and retries; a message containing `syncResult is undefined` resolves null;
the token-renewal failure message reconnects and resolves; anything else
logs, reconnects and rejects with the original error.  Reconnecting
(`reconnectSync`, lines 265-270) clears the stored credential and sends
the `reconnect` runtime message. -/
def classifyError (e : JsError) : List Effect × CycleRet :=
  if e.responseStatus = some 401 then
    ([Effect.clearCredential, Effect.send Msg.reconnect], CycleRet.done SyncRet.resolved)
  else if e.isServerKeyNewer then
    ([Effect.consoleError, Effect.clearCredential, Effect.send Msg.reconnect],
     CycleRet.done SyncRet.resolved)
  else if e.isServerKeyOlder then
    ([Effect.consoleError, Effect.deleteCollection, Effect.resetSyncStatus], CycleRet.retry)
  else if jsIncludes e.message "flushed" then
    ([Effect.resetSyncStatus], CycleRet.retry)
  else if jsIncludes e.message "syncResult is undefined" then
    ([], CycleRet.done SyncRet.resolved)
  else if e.message = "Failed to renew token" then
    ([Effect.clearCredential, Effect.send Msg.reconnect], CycleRet.done SyncRet.resolved)
  else
    ([Effect.consoleError, Effect.clearCredential, Effect.send Msg.reconnect],
     CycleRet.done (SyncRet.rejected e))

/-- The session state carried on the `client` object: the `conflict` flag
reset at the start of a save cycle and set by merge resolutions
(src/sync.js lines 219 and 333). -/
structure ClientState where
  conflict : Bool
deriving DecidableEq

/-- The environment's verdict for one sync cycle: no stored credential
(signed-out no-op), credential renewal rejected, `collection.sync`
rejected with an error, or `collection.sync` returned a sync result. -/
inductive CycleOutcome where
  | noCred
  | renewErr
  | syncErr (e : JsError)
  | syncOk (sr : SyncResult)
deriving DecidableEq

/-- Sequential resolution of a round's conflicts
(src/sync.js lines 187-223): each conflict is resolved against the
current `published` list (mutated in place by the migration case), the
session conflict flag accumulates, and a thrown resolver error aborts the
remaining conflicts.  Returns the emitted effects, the final flag and the
aborting error message, if any. -/
def resolveAllConflicts (mergeWarning : String) :
    List Conflict → List Note → Bool → List Effect × Bool × Option String
  | [], _, flag => ([], flag, none)
  | c :: rest, published, flag =>
    match resolveConflict mergeWarning published c with
    | Except.error e => ([], flag, some e)
    | Except.ok step =>
      let next := resolveAllConflicts mergeWarning rest step.published (flag || step.conflictFlag)
      (step.effects ++ next.1, next.2.1, next.2.2)

/-- One cycle of `syncKinto` (src/sync.js lines 156-262) under a given
environment outcome: a signed-out user is a no-op success; renewal failure
and sync failure go to the classifier; a sync result with no conflicts
succeeds; conflicts are resolved and the cycle restarts, unless a resolver
error is thrown, which goes to the classifier.  A cycle that reaches
`collection.sync` first persists the renewed credential and attempts the
sync. -/
def runCycle (mergeWarning : String) (st : ClientState) :
    CycleOutcome → ClientState × List Effect × CycleRet
  | CycleOutcome.noCred => (st, [], CycleRet.done SyncRet.resolved)
  | CycleOutcome.renewErr =>
    let c := classifyError { message := "Failed to renew token" }
    (st, c.1, c.2)
  | CycleOutcome.syncErr e =>
    let c := classifyError e
    (st, [Effect.setCredential, Effect.syncAttempt] ++ c.1, c.2)
  | CycleOutcome.syncOk sr =>
    if sr.conflicts.isEmpty then
      (st, [Effect.setCredential, Effect.syncAttempt], CycleRet.done SyncRet.resolved)
    else
      let res := resolveAllConflicts mergeWarning sr.conflicts sr.published st.conflict
      let st2 : ClientState := { conflict := res.2.1 }
      match res.2.2 with
      | none => (st2, [Effect.setCredential, Effect.syncAttempt] ++ res.1, CycleRet.retry)
      | some msg =>
        let c := classifyError { message := msg }
        (st2, [Effect.setCredential, Effect.syncAttempt] ++ res.1 ++ c.1, c.2)

/-- The recursive `syncKinto` driver over a script of per-cycle
environment outcomes, consumed one per cycle.  Modelling artifact: an
exhausted script behaves like a signed-out no-op cycle; every claim below
either pins the script or is independent of this fallback. -/
def syncKinto (mergeWarning : String) :
    List CycleOutcome → ClientState → ClientState × List Effect × SyncRet
  | [], st => (st, [], SyncRet.resolved)
  | o :: rest, st =>
    let step := runCycle mergeWarning st o
    match step.2.2 with
    | CycleRet.done r => (step.1, step.2.1, r)
    | CycleRet.retry =>
      let next := syncKinto mergeWarning rest step.1
      (next.1, step.2.1 ++ next.2.1, next.2.2)

/-- The environment's verdict for `retrieveNote` (src/sync.js line 272):
the current local note list, or a rejected list call. -/
inductive RetrieveOutcome where
  | ok (notes : List Note)
  | err
deriving DecidableEq

/-- The `notes` payload reported for a retrieve outcome: the local list on
success, `null` on failure. -/
def retrieveData : RetrieveOutcome → Option (List Note)
  | RetrieveOutcome.ok notes => some notes
  | RetrieveOutcome.err => none

/-- `loadFromKinto` (src/sync.js lines 291-310): run a sync cycle, fetch
the local note list whether the sync resolved or rejected, and send one
`kinto-loaded` message carrying the list, or `null` when even the local
list cannot be retrieved. -/
def loadFromKinto (mergeWarning : String) (script : List CycleOutcome)
    (retrieve : RetrieveOutcome) (st : ClientState) : ClientState × List Effect :=
  let s := syncKinto mergeWarning script st
  (s.1, s.2.1 ++ [Effect.send (Msg.kintoLoaded (retrieveData retrieve) none)])

/-- The environment's verdict for the local `notes.upsert` call
(src/sync.js line 327). -/
inductive UpsertOutcome where
  | ok
  | err
deriving DecidableEq

/-- The fired save cycle: the debounced `later` callback of `saveToKinto`
(src/sync.js lines 324-357).  On a successful local upsert it sends
`text-saved`, resets `client.conflict` to `false`, runs `syncKinto`,
fetches the local list and sends `text-synced` with the post-sync conflict
flag; on a failed upsert the chain skips to the final catch, which sends
`text-synced` with an absent list and the untouched conflict flag.  The
debounce timer and the immediate `text-editing` message precede the fired
cycle and are outside this model. -/
def saveCycleFired (mergeWarning : String) (script : List CycleOutcome)
    (upsert : UpsertOutcome) (retrieve : RetrieveOutcome) (st : ClientState)
    (note : Note) : ClientState × List Effect :=
  match upsert with
  | UpsertOutcome.err =>
    (st, [Effect.upsertNote note, Effect.send (Msg.textSynced none st.conflict)])
  | UpsertOutcome.ok =>
    let s := syncKinto mergeWarning script { st with conflict := false }
    (s.1, [Effect.upsertNote note, Effect.send Msg.textSaved] ++ s.2.1 ++
      [Effect.send (Msg.textSynced (retrieveData retrieve) s.1.conflict)])

/-- Recognizer for the `kinto-loaded` runtime message among effects. -/
def isKintoLoadedEffect : Effect → Bool
  | Effect.send (Msg.kintoLoaded _ _) => true
  | _ => false

lemma classifyError_no_kintoLoaded (e : JsError) :
    (classifyError e).1.countP isKintoLoadedEffect = 0 := by
  unfold classifyError
  split_ifs <;> rfl

lemma resolveConflict_no_kintoLoaded (mergeWarning : String) (published : List Note)
    (c : Conflict) (step : ResolveStep)
    (h : resolveConflict mergeWarning published c = Except.ok step) :
    step.effects.countP isKintoLoadedEffect = 0 := by
  cases hr : c.remote with
  | none =>
    simp [resolveConflict, hr] at h
    subst h
    rfl
  | some r =>
    by_cases hid : r.id = "singleNote"
    · cases hf : findWasSingleNote published with
      | none => simp [resolveConflict, hr, hid, hf] at h
      | some w =>
        simp [resolveConflict, hr, hid, hf] at h
        subst h
        rfl
    · simp [resolveConflict, hr, hid] at h
      subst h
      rfl

lemma resolveAllConflicts_no_kintoLoaded (mergeWarning : String) :
    ∀ (conflicts : List Conflict) (published : List Note) (flag : Bool),
      (resolveAllConflicts mergeWarning conflicts published flag).1.countP isKintoLoadedEffect = 0
  | [], _, _ => rfl
  | c :: rest, published, flag => by
    rw [resolveAllConflicts]
    cases hres : resolveConflict mergeWarning published c with
    | error e => rfl
    | ok step =>
      simp only [List.countP_append]
      rw [resolveConflict_no_kintoLoaded mergeWarning published c step hres,
        resolveAllConflicts_no_kintoLoaded mergeWarning rest step.published
          (flag || step.conflictFlag)]

lemma runCycle_no_kintoLoaded (mergeWarning : String) (st : ClientState) (o : CycleOutcome) :
    (runCycle mergeWarning st o).2.1.countP isKintoLoadedEffect = 0 := by
  cases o with
  | noCred => rfl
  | renewErr => rfl
  | syncErr e =>
    simp [runCycle, List.countP_append, classifyError_no_kintoLoaded, isKintoLoadedEffect]
  | syncOk sr =>
    rw [runCycle]
    by_cases hempty : sr.conflicts.isEmpty
    · simp [hempty, isKintoLoadedEffect]
    · simp only [hempty, if_false]
      cases herr : (resolveAllConflicts mergeWarning sr.conflicts sr.published st.conflict).2.2 with
      | none =>
        simp [List.countP_append, resolveAllConflicts_no_kintoLoaded, isKintoLoadedEffect]
      | some msg =>
        simp [List.countP_append, resolveAllConflicts_no_kintoLoaded,
          classifyError_no_kintoLoaded, isKintoLoadedEffect]

lemma syncKinto_no_kintoLoaded (mergeWarning : String) :
    ∀ (script : List CycleOutcome) (st : ClientState),
      (syncKinto mergeWarning script st).2.1.countP isKintoLoadedEffect = 0
  | [], _ => rfl
  | o :: rest, st => by
    rw [syncKinto]
    cases hc : (runCycle mergeWarning st o).2.2 with
    | done r => simp [runCycle_no_kintoLoaded]
    | retry =>
      simp [List.countP_append, runCycle_no_kintoLoaded,
        syncKinto_no_kintoLoaded mergeWarning rest (runCycle mergeWarning st o).1]

/-- A concrete HTTP 401 failure raised by the store. -/
def sample401Error : JsError := { responseStatus := some 401, message := "Unauthorized" }

/-- A concrete note handed to a save cycle. -/
def sampleSavedNote : Note := { id := "n9", content := some "draft" }

/-- C8: whenever the store raises a failure with HTTP status 401 during a
sync cycle, the cycle clears the stored credential, sends the `reconnect`
message, and settles successfully without re-invoking the sync: the
result is independent of the remaining script, and the effects contain
exactly the one sync attempt of the failing cycle. -/
theorem sync_401_reconnect_no_retry (mergeWarning : String) (e : JsError)
    (rest : List CycleOutcome) (st : ClientState) (h : e.responseStatus = some 401) :
    syncKinto mergeWarning (CycleOutcome.syncErr e :: rest) st =
      (st, [Effect.setCredential, Effect.syncAttempt, Effect.clearCredential,
        Effect.send Msg.reconnect], SyncRet.resolved) := by
  simp [syncKinto, runCycle, classifyError, h]

/-- C8 witness: a 401 failure in the first cycle, evaluated concretely. -/
theorem sync_401_reconnect_no_retry_witness :
    syncKinto "warn" [CycleOutcome.syncErr sample401Error] { conflict := false } =
      ({ conflict := false }, [Effect.setCredential, Effect.syncAttempt,
        Effect.clearCredential, Effect.send Msg.reconnect], SyncRet.resolved) :=
  sync_401_reconnect_no_retry "warn" sample401Error [] { conflict := false } rfl

/-- C9: every load emits the `kinto-loaded` message exactly once, and
that message carries the retrieved local note list regardless of how the
sync cycle went, with `notes = null` exactly when even the local list
cannot be retrieved. -/
theorem load_reports_exactly_once (mergeWarning : String) (script : List CycleOutcome)
    (retrieve : RetrieveOutcome) (st : ClientState) :
    (loadFromKinto mergeWarning script retrieve st).2.countP isKintoLoadedEffect = 1 ∧
    (loadFromKinto mergeWarning script retrieve st).2.getLast? =
      some (Effect.send (Msg.kintoLoaded (retrieveData retrieve) none)) := by
  constructor
  · simp [loadFromKinto, List.countP_append, syncKinto_no_kintoLoaded, isKintoLoadedEffect]
  · simp [loadFromKinto, List.getLast?_concat]

/-- C10 counterexample: a fired save cycle whose local upsert fails emits
a `text-synced` message whose conflict field is the previous cycle's flag:
starting from a session flag of `true` it reports `true` although the
cycle resolved no conflict, and starting from `false` it reports `false`,
so the reported field can carry a conflict from an earlier cycle. -/
theorem save_conflict_flag_counterexample :
    (saveCycleFired "warn" [] UpsertOutcome.err RetrieveOutcome.err { conflict := true }
        sampleSavedNote).2 =
      [Effect.upsertNote sampleSavedNote, Effect.send (Msg.textSynced none true)] ∧
    (saveCycleFired "warn" [] UpsertOutcome.err RetrieveOutcome.err { conflict := false }
        sampleSavedNote).2 =
      [Effect.upsertNote sampleSavedNote, Effect.send (Msg.textSynced none false)] :=
  ⟨rfl, rfl⟩

/-- C10 amended: every fired save cycle whose local upsert succeeds resets
the session conflict flag to `false` after the upsert and before the
network sync, so its `text-synced` message reports the conflict flag
computed by this cycle's sync from a clean flag, independently of the
flag left by earlier cycles; if the local upsert fails, the flag is not
reset and the message may report an earlier cycle's conflict. -/
theorem save_conflict_flag_current_cycle (mergeWarning : String)
    (script : List CycleOutcome) (retrieve : RetrieveOutcome) (st : ClientState)
    (note : Note) :
    (saveCycleFired mergeWarning script UpsertOutcome.ok retrieve st note).2 =
      [Effect.upsertNote note, Effect.send Msg.textSaved] ++
        (syncKinto mergeWarning script { conflict := false }).2.1 ++
        [Effect.send (Msg.textSynced (retrieveData retrieve)
          (syncKinto mergeWarning script { conflict := false }).1.conflict)] := by
  simp [saveCycleFired]

end NotesSync
